import Mathlib

/-!
Verification of the `check-side-effects` test-suite driver (`src/cli.ts`).

The development shallowly embeds the driver: the filesystem is an explicit
state value, console output and checker invocations are recorded as an event
trace, and the external collaborators (the side-effect checker, the `path`
utilities, the diff renderer and the argument tokenizer) are modelled from
their documented contracts.
-/

namespace CheckSideEffects

/-- Filesystem state: regular files (path, content) and directories.
`writeFileSync` prepends, so lookup finds the newest binding. -/
structure FS where
  files : List (String × String)
  dirs : List String
deriving DecidableEq

/-- `fs.existsSync(p)`: the path is a regular file or a directory. -/
def existsSync (fs : FS) (p : String) : Bool :=
  (fs.files.lookup p).isSome || fs.dirs.contains p

/-- `fs.readFileSync(p, 'utf-8')` on a regular file; callers in the driver
guard the call with `existsSync`. -/
def readFileSync (fs : FS) (p : String) : String :=
  (fs.files.lookup p).getD ""

/-- `fs.writeFileSync(p, c, 'utf-8')`. -/
def writeFileSync (fs : FS) (p c : String) : FS :=
  { fs with files := (p, c) :: fs.files }

/-- `fs.mkdirSync(p)`; in the driver it is only called on absent paths. -/
def mkdirSync (fs : FS) (p : String) : FS :=
  { fs with dirs := p :: fs.dirs }

/-- Modelled from the contract of Node's `path.dirname` (posix): scanning
from the end, trailing slashes are skipped, the final component is dropped,
and the slash separating it is not part of the result unless it is the root. -/
def dirname (p : String) : String :=
  match p.data with
  | [] => "."
  | c0 :: cs =>
    let r := (((c0 :: cs).reverse.dropWhile (fun c => c = '/')).dropWhile (fun c => c ≠ '/'))
    if r.length ≤ 1 then (if c0 = '/' then "/" else ".")
    else if c0 = '/' ∧ r.length = 2 then "//"
    else String.mk (r.drop 1).reverse

/-- Modelled from the contract of Node's `path.resolve(dir, p)`: an absolute
`p` is returned as is, otherwise `p` is joined onto `dir`. -/
def resolve (dir p : String) : String :=
  if p.data.head? = some '/' then p else dir ++ "/" ++ p

/-- `_recursiveMkDir` (cli.ts lines 220-225): create the path unless it
exists, after recursively creating its parent.  The recursion of the source
has no structural bound, so the embedding takes explicit fuel; `none` means
the fuel ran out before an existing ancestor was reached. -/
def _recursiveMkDir (fuel : Nat) (fs : FS) (path : String) : Option FS :=
  match fuel with
  | 0 => none
  | fuel + 1 =>
    if existsSync fs path then some fs
    else
      match _recursiveMkDir fuel fs (dirname path) with
      | some fs2 => some (mkdirSync fs2 path)
      | none => none

/-- `_recursiveMkDir` as used by the suite loop, with fuel large enough for
every chain that terminates on a real filesystem; if no ancestor exists the
source would recurse forever, which the model truncates to a no-op. -/
def mkDirs (fs : FS) (path : String) : FS :=
  (_recursiveMkDir (path.length + 2) fs path).getD fs

theorem recursiveMkDir_files {fuel : Nat} {fs fs2 : FS} {path : String}
    (h : _recursiveMkDir fuel fs path = some fs2) : fs2.files = fs.files := by
  induction fuel generalizing path fs2 with
  | zero => simp [_recursiveMkDir] at h
  | succ n ih =>
    rw [_recursiveMkDir] at h
    by_cases hex : existsSync fs path
    · simp [hex] at h
      subst h; rfl
    · simp [hex] at h
      rcases h2 : _recursiveMkDir n fs (dirname path) with _ | fs3
      · rw [h2] at h; simp at h
      · rw [h2] at h
        simp at h
        subst h
        simpa [mkdirSync] using ih h2

theorem mkDirs_files (fs : FS) (path : String) : (mkDirs fs path).files = fs.files := by
  unfold mkDirs
  rcases h : _recursiveMkDir (path.length + 2) fs path with _ | fs2
  · simp
  · simpa using recursiveMkDir_files h

/-- The options record handed to the external checker capability
(`CheckSideEffectsOptions` of `./checker`, consumed opaquely here).
Fields other than `esModules` and `cwd` are optional: the suite branch of
the driver only sets what the per-case override provides. -/
structure CheckSideEffectsOptions where
  esModules : List String
  cwd : String
  output : Option String := none
  propertyReadSideEffects : Option Bool := none
  resolveExternals : Option Bool := none
  printDependencies : Option Bool := none
  useBuildOptimizer : Option Bool := none
  useMinifier : Option Bool := none
  warnings : Option Bool := none
deriving DecidableEq

/-- A per-case options override from the descriptor file (`test.options`);
every field is optional, mirroring a partial JSON object. -/
structure TestOptions where
  cwd : Option String := none
  output : Option String := none
  propertyReadSideEffects : Option Bool := none
  resolveExternals : Option Bool := none
  printDependencies : Option Bool := none
  useBuildOptimizer : Option Bool := none
  useMinifier : Option Bool := none
  warnings : Option Bool := none
deriving DecidableEq

/-- One test record of the descriptor file: `esModules` is a single path or
a list of paths, `options` an optional partial override, `expectedOutput`
the snapshot path. -/
structure Test where
  esModules : String ⊕ List String
  options : Option TestOptions := none
  expectedOutput : String
deriving DecidableEq

/-- The parsed descriptor file. -/
structure TestJson where
  tests : List Test
deriving DecidableEq

/-- Modelled from the contract of the diff collaborator: `createPatch`
renders a unified diff transforming `oldStr` into `newStr`, labeled with
`fileName`; the model keeps the three inputs of the rendering. -/
structure Patch where
  fileName : String
  oldStr : String
  newStr : String
deriving DecidableEq

def createPatch (fileName oldStr newStr : String) : Patch :=
  ⟨fileName, oldStr, newStr⟩

/-- Rendering of a patch as text for the console (the exact unified-diff
text is produced by the external library; the model keeps its inputs). -/
def patchText (p : Patch) : String :=
  "Index: " ++ p.fileName ++ "\n--- expected\n" ++ p.oldStr ++ "\n+++ actual\n" ++ p.newStr

/-- One collected comparison failure. -/
structure FailedExpectation where
  testDescription : String
  diff : Patch
deriving DecidableEq

/-- Observable actions of the driver, in order: console output, checker
invocations and snapshot-file writes. -/
inductive Event where
  | log : String → Event
  | invoke : CheckSideEffectsOptions → Event
  | write : String → String → Event
deriving DecidableEq

def Event.isInvoke : Event → Bool
  | .invoke _ => true
  | _ => false

def Event.isWrite : Event → Bool
  | .write _ _ => true
  | _ => false

/-- `Array.isArray(test.esModules) ? test.esModules : [test.esModules]`. -/
def unresolvedEsModules (t : Test) : List String :=
  match t.esModules with
  | .inl s => [s]
  | .inr l => l

/-- `unresolvedEsModules.map(esm => resolve(testFileDir, esm))`. -/
def resolvedEsModules (dir : String) (t : Test) : List String :=
  (unresolvedEsModules t).map (resolve dir)

/-- `unresolvedEsModules.join(' ')`. -/
def modulesDescription (t : Test) : String :=
  String.intercalate " " (unresolvedEsModules t)

/-- `resolve(testFileDir, test.expectedOutput)`. -/
def expectedOutputPath (dir : String) (t : Test) : String :=
  resolve dir t.expectedOutput

/-- `{ esModules, cwd: options.cwd, ...test.options }`: the spread copies
every field the override provides on top of the two base fields. -/
def caseOptions (cwd dir : String) (t : Test) : CheckSideEffectsOptions :=
  match t.options with
  | none => { esModules := resolvedEsModules dir t, cwd := cwd }
  | some o =>
    { esModules := resolvedEsModules dir t
      cwd := o.cwd.getD cwd
      output := o.output
      propertyReadSideEffects := o.propertyReadSideEffects
      resolveExternals := o.resolveExternals
      printDependencies := o.printDependencies
      useBuildOptimizer := o.useBuildOptimizer
      useMinifier := o.useMinifier
      warnings := o.warnings }

/-- Loading of the expected snapshot text (cli.ts lines 123-129): read the
file when it exists, otherwise use the empty string instead of an error. -/
def expectedText (fs : FS) (p : String) : String :=
  if existsSync fs p then readFileSync fs p else ""

/-- State threaded through the suite loop: the filesystem, the event trace
so far and the `failedExpectations` accumulator. -/
structure SuiteState where
  fs : FS
  events : List Event
  failed : List FailedExpectation
deriving DecidableEq

/-- One iteration of the suite loop (cli.ts lines 103-140): print progress,
invoke the checker, load the expected text, and on mismatch record a
failure and — in update mode — write the snapshot after creating its
parent directories. -/
def runTest (checker : CheckSideEffectsOptions → String) (cwd dir : String)
    (update : Bool) (st : SuiteState) (t : Test) : SuiteState :=
  let opts := caseOptions cwd dir t
  let result := checker opts
  let path := expectedOutputPath dir t
  let expected := expectedText st.fs path
  let ev := st.events ++ [Event.log ("Testing " ++ modulesDescription t), Event.invoke opts]
  if result ≠ expected then
    let d := createPatch path expected result
    let failed := st.failed ++ [⟨modulesDescription t, d⟩]
    if update then
      { fs := writeFileSync (mkDirs st.fs (dirname path)) path result
        events := ev ++ [Event.write path result]
        failed := failed }
    else
      { st with events := ev, failed := failed }
  else
    { st with events := ev }

/-- The suite loop: `for (const test of testJson.tests) { ... }`. -/
def suiteLoop (checker : CheckSideEffectsOptions → String) (cwd dir : String)
    (update : Bool) (st : SuiteState) (tests : List Test) : SuiteState :=
  tests.foldl (runTest checker cwd dir update) st

/-- The joined diff report (cli.ts lines 147-148). -/
def diffsText (failed : List FailedExpectation) : String :=
  String.intercalate "\n"
    (failed.map (fun s => "Snapshot for " ++ s.testDescription ++ " changed:\n\n" ++ patchText s.diff ++ "\n"))

/-- Outcome of a suite run: the event trace, the final filesystem, the
collected failures, and normal completion versus a raised value. -/
structure SuiteOutcome where
  events : List Event
  fs : FS
  failed : List FailedExpectation
  result : Except String Unit

/-- The suite branch of `main` (cli.ts lines 98-161), after the descriptor
file has been located and decoded by the collaborators: run every case,
then report; without update mode a non-empty failure list prints the count
and the reproduction command and raises the empty string. -/
def runSuite (checker : CheckSideEffectsOptions → String) (rawArgs : List String)
    (cwd : String) (update : Bool) (testFilePath : String) (testJson : TestJson)
    (fs0 : FS) : SuiteOutcome :=
  let dir := dirname testFilePath
  let st := suiteLoop checker cwd dir update ⟨fs0, [], []⟩ testJson.tests
  let ev := Event.log ("Loading tests from " ++ testFilePath ++ "\n") :: (st.events ++ [Event.log ""])
  if 0 < st.failed.length then
    let ev2 := ev ++ [Event.log "The following snapshots have changed:\n\n",
                      Event.log (diffsText st.failed)]
    if update then
      ⟨ev2 ++ [Event.log (toString st.failed.length ++ " test expectations updated.\n")],
       st.fs, st.failed, Except.ok ()⟩
    else
      ⟨ev2 ++ [Event.log (toString st.failed.length ++ " tests failed, see above for diffs."),
               Event.log "To update the expectations, run this command again with the --update flag:",
               Event.log "",
               Event.log ("  " ++ String.intercalate " " rawArgs ++ " --update")],
       st.fs, st.failed, Except.error ""⟩
  else
    ⟨ev ++ [Event.log "All tests passed."], st.fs, st.failed, Except.ok ()⟩

/-- `str.endsWith(suffix)` of JS, modelled on the character list. -/
def strEndsWith (s suffix : String) : Bool :=
  List.isPrefixOf suffix.data.reverse s.data.reverse

/-- `isNodeBinary` (cli.ts lines 191-193). -/
def isNodeBinary (str : String) : Bool :=
  strEndsWith str "node" || strEndsWith str "node.exe"

/-- The parsed command line as produced by the argument tokenizer:
`pos` is the positional list (`options._`), the rest are the flags with
their defaults already applied. -/
structure ParsedCliOptions where
  pos : List String
  cwd : String
  output : Option String := none
  propertyReadSideEffects : Bool := true
  resolveExternals : Bool := false
  printDependencies : Bool := false
  useBuildOptimizer : Bool := true
  useMinifier : Bool := true
  warnings : Bool := false
deriving DecidableEq

/-- String-valued flags recognized by the tokenizer configuration. -/
def stringFlagNames : List String := ["cwd", "output", "test"]

/-- Modelled from the contract of the argument tokenizer (minimist, an
external collaborator): tokens that are not flags are collected in order
into the positional list `_`; a `--name` token for a string-valued flag
consumes the following token as its value; `--` sends the remainder to a
separate key. -/
def minimistPositionals : List String → List String
  | [] => []
  | a :: rest =>
    if a = "--" then []
    else if a.data.take 2 = ['-', '-'] ∧ stringFlagNames.contains (String.mk (a.data.drop 2)) then
      match rest with
      | [] => []
      | _ :: rest2 => minimistPositionals rest2
    else if a.data.take 1 = ['-'] then minimistPositionals rest
    else a :: minimistPositionals rest

/-- `isNodeBinary(options._[0]) ? options._.slice(2) : options._.slice(1)`
(cli.ts line 166). -/
def singleRunEsModules (pos : List String) : List String :=
  if isNodeBinary (pos.headD "") then pos.drop 2 else pos.drop 1

/-- The single-run branch of `main` (cli.ts lines 162-187): strip the
leading tokens, fail when no module is left, otherwise assemble the
checker options from the flags and forward to the checker. -/
def singleRun (checker : CheckSideEffectsOptions → String)
    (options : ParsedCliOptions) : Except String String :=
  let esModules := singleRunEsModules options.pos
  if esModules.length = 0 then
    Except.error "You must provide at least one ES module. Use --help for usage information."
  else
    Except.ok (checker
      { esModules := esModules
        cwd := options.cwd
        output := options.output
        propertyReadSideEffects := some options.propertyReadSideEffects
        resolveExternals := some options.resolveExternals
        printDependencies := some options.printDependencies
        useBuildOptimizer := some options.useBuildOptimizer
        useMinifier := some options.useMinifier
        warnings := some options.warnings })

/-- The snapshot-write events one case contributes: one write when the case
mismatches in update mode, none otherwise. -/
def caseWriteEvents (checker : CheckSideEffectsOptions → String) (cwd dir : String)
    (update : Bool) (fs : FS) (t : Test) : List Event :=
  if checker (caseOptions cwd dir t) ≠ expectedText fs (expectedOutputPath dir t) ∧ update = true
  then [Event.write (expectedOutputPath dir t) (checker (caseOptions cwd dir t))]
  else []

/-- The failure record one case contributes. -/
def caseFailures (checker : CheckSideEffectsOptions → String) (cwd dir : String)
    (fs : FS) (t : Test) : List FailedExpectation :=
  if checker (caseOptions cwd dir t) ≠ expectedText fs (expectedOutputPath dir t)
  then [⟨modulesDescription t,
         createPatch (expectedOutputPath dir t)
           (expectedText fs (expectedOutputPath dir t))
           (checker (caseOptions cwd dir t))⟩]
  else []

theorem runTest_events (checker : CheckSideEffectsOptions → String) (cwd dir : String)
    (update : Bool) (st : SuiteState) (t : Test) :
    (runTest checker cwd dir update st t).events
      = st.events ++ [Event.log ("Testing " ++ modulesDescription t),
                      Event.invoke (caseOptions cwd dir t)]
        ++ caseWriteEvents checker cwd dir update st.fs t := by
  simp only [runTest, caseWriteEvents]
  by_cases h : checker (caseOptions cwd dir t) ≠ expectedText st.fs (expectedOutputPath dir t)
  · cases update <;> simp [h]
  · simp [h]

theorem runTest_failed (checker : CheckSideEffectsOptions → String) (cwd dir : String)
    (update : Bool) (st : SuiteState) (t : Test) :
    (runTest checker cwd dir update st t).failed
      = st.failed ++ caseFailures checker cwd dir st.fs t := by
  simp only [runTest, caseFailures]
  by_cases h : checker (caseOptions cwd dir t) ≠ expectedText st.fs (expectedOutputPath dir t)
  · cases update <;> simp [h, createPatch]
  · simp [h]

theorem runTest_fs (checker : CheckSideEffectsOptions → String) (cwd dir : String)
    (update : Bool) (st : SuiteState) (t : Test) :
    (runTest checker cwd dir update st t).fs
      = if checker (caseOptions cwd dir t) ≠ expectedText st.fs (expectedOutputPath dir t)
            ∧ update = true
        then writeFileSync (mkDirs st.fs (dirname (expectedOutputPath dir t)))
               (expectedOutputPath dir t) (checker (caseOptions cwd dir t))
        else st.fs := by
  simp only [runTest]
  by_cases h : checker (caseOptions cwd dir t) ≠ expectedText st.fs (expectedOutputPath dir t)
  · cases update <;> simp [h]
  · simp [h]

theorem suiteLoop_nil (checker : CheckSideEffectsOptions → String) (cwd dir : String)
    (update : Bool) (st : SuiteState) :
    suiteLoop checker cwd dir update st [] = st := rfl

theorem suiteLoop_cons (checker : CheckSideEffectsOptions → String) (cwd dir : String)
    (update : Bool) (st : SuiteState) (t : Test) (ts : List Test) :
    suiteLoop checker cwd dir update st (t :: ts)
      = suiteLoop checker cwd dir update (runTest checker cwd dir update st t) ts := rfl

theorem filter_nonwrite_pair (s : String) (o : CheckSideEffectsOptions) :
    List.filter (fun e => !e.isWrite) [Event.log s, Event.invoke o]
      = [Event.log s, Event.invoke o] := by
  simp [List.filter_cons, Event.isWrite]

theorem filter_invoke_pair (s : String) (o : CheckSideEffectsOptions) :
    List.filter Event.isInvoke [Event.log s, Event.invoke o] = [Event.invoke o] := by
  simp [List.filter_cons, Event.isInvoke]

theorem caseWriteEvents_filter_nonwrite (checker : CheckSideEffectsOptions → String)
    (cwd dir : String) (update : Bool) (fs : FS) (t : Test) :
    List.filter (fun e => !e.isWrite) (caseWriteEvents checker cwd dir update fs t) = [] := by
  unfold caseWriteEvents
  split <;> simp [List.filter_cons, Event.isWrite]

theorem caseWriteEvents_filter_invoke (checker : CheckSideEffectsOptions → String)
    (cwd dir : String) (update : Bool) (fs : FS) (t : Test) :
    List.filter Event.isInvoke (caseWriteEvents checker cwd dir update fs t) = [] := by
  unfold caseWriteEvents
  split <;> simp [List.filter_cons, Event.isInvoke]

theorem caseWriteEvents_filter_write (checker : CheckSideEffectsOptions → String)
    (cwd dir : String) (update : Bool) (fs : FS) (t : Test) :
    List.filter Event.isWrite (caseWriteEvents checker cwd dir update fs t)
      = caseWriteEvents checker cwd dir update fs t := by
  unfold caseWriteEvents
  split <;> simp [List.filter_cons, Event.isWrite]

theorem caseWriteEvents_length (checker : CheckSideEffectsOptions → String)
    (cwd dir : String) (update : Bool) (fs : FS) (t : Test) :
    (caseWriteEvents checker cwd dir update fs t).length
      = cond update (caseFailures checker cwd dir fs t).length 0 := by
  cases update with
  | false => unfold caseWriteEvents; simp
  | true =>
    unfold caseWriteEvents caseFailures
    by_cases hm : checker (caseOptions cwd dir t) ≠ expectedText fs (expectedOutputPath dir t)
    · simp [hm]
    · simp [hm]

theorem caseFailures_length_le (checker : CheckSideEffectsOptions → String)
    (cwd dir : String) (fs : FS) (t : Test) :
    (caseFailures checker cwd dir fs t).length ≤ 1 := by
  unfold caseFailures
  split <;> simp

/-- Restricted to non-write events, the loop contributes exactly one
progress line immediately followed by one checker invocation per case, in
descriptor order, whatever the filesystem, checker results or mode. -/
theorem suiteLoop_nonwrite_events (checker : CheckSideEffectsOptions → String)
    (cwd dir : String) (update : Bool) (tests : List Test) (st : SuiteState) :
    ((suiteLoop checker cwd dir update st tests).events.filter (fun e => !e.isWrite))
      = st.events.filter (fun e => !e.isWrite)
        ++ tests.flatMap (fun t => [Event.log ("Testing " ++ modulesDescription t),
                                    Event.invoke (caseOptions cwd dir t)]) := by
  induction tests generalizing st with
  | nil => simp [suiteLoop_nil]
  | cons t ts ih =>
    rw [suiteLoop_cons, ih, runTest_events, List.filter_append, List.filter_append,
      filter_nonwrite_pair, caseWriteEvents_filter_nonwrite]
    simp [List.flatMap_cons]

/-- The checker-invocation events of the loop: exactly one per case, in
descriptor order. -/
theorem suiteLoop_invoke_events (checker : CheckSideEffectsOptions → String)
    (cwd dir : String) (update : Bool) (tests : List Test) (st : SuiteState) :
    ((suiteLoop checker cwd dir update st tests).events.filter Event.isInvoke)
      = st.events.filter Event.isInvoke
        ++ tests.map (fun t => Event.invoke (caseOptions cwd dir t)) := by
  induction tests generalizing st with
  | nil => simp [suiteLoop_nil]
  | cons t ts ih =>
    rw [suiteLoop_cons, ih, runTest_events, List.filter_append, List.filter_append,
      filter_invoke_pair, caseWriteEvents_filter_invoke]
    simp [List.map_cons]

/-- Each case contributes at most one failure record. -/
theorem suiteLoop_failed_length (checker : CheckSideEffectsOptions → String)
    (cwd dir : String) (update : Bool) (tests : List Test) (st : SuiteState) :
    (suiteLoop checker cwd dir update st tests).failed.length
      ≤ st.failed.length + tests.length := by
  induction tests generalizing st with
  | nil => simp [suiteLoop_nil]
  | cons t ts ih =>
    rw [suiteLoop_cons]
    refine le_trans (ih _) ?_
    rw [runTest_failed]
    have hc := caseFailures_length_le checker cwd dir st.fs t
    simp only [List.length_append, List.length_cons]
    omega

/-- Balance between snapshot writes and recorded failures: in update mode
each newly recorded failure comes with exactly one snapshot write, without
update mode no write happens at all. -/
theorem suiteLoop_write_count (checker : CheckSideEffectsOptions → String)
    (cwd dir : String) (update : Bool) (tests : List Test) (st : SuiteState) :
    ((suiteLoop checker cwd dir update st tests).events.filter Event.isWrite).length
        + cond update st.failed.length 0
      = (st.events.filter Event.isWrite).length
        + cond update (suiteLoop checker cwd dir update st tests).failed.length 0 := by
  induction tests generalizing st with
  | nil => simp [suiteLoop_nil]
  | cons t ts ih =>
    rw [suiteLoop_cons]
    have h := ih (runTest checker cwd dir update st t)
    have hW : (List.filter Event.isWrite (runTest checker cwd dir update st t).events).length
        = (List.filter Event.isWrite st.events).length
          + (caseWriteEvents checker cwd dir update st.fs t).length := by
      rw [runTest_events, List.filter_append, List.filter_append,
        caseWriteEvents_filter_write]
      have hpair : List.filter Event.isWrite
          [Event.log ("Testing " ++ modulesDescription t),
           Event.invoke (caseOptions cwd dir t)] = [] := by
        simp [List.filter_cons, Event.isWrite]
      rw [hpair]
      simp
    have hF : (runTest checker cwd dir update st t).failed.length
        = st.failed.length + (caseFailures checker cwd dir st.fs t).length := by
      rw [runTest_failed]; simp
    have hlen := caseWriteEvents_length checker cwd dir update st.fs t
    cases update with
    | false =>
      simp only [Bool.cond_false] at h hlen ⊢
      omega
    | true =>
      simp only [Bool.cond_true] at h hlen ⊢
      omega

theorem runTest_fs_false (checker : CheckSideEffectsOptions → String) (cwd dir : String)
    (st : SuiteState) (t : Test) :
    (runTest checker cwd dir false st t).fs = st.fs := by
  rw [runTest_fs]
  simp

/-- Without update mode the loop never touches the filesystem. -/
theorem suiteLoop_fs_false (checker : CheckSideEffectsOptions → String) (cwd dir : String)
    (tests : List Test) (st : SuiteState) :
    (suiteLoop checker cwd dir false st tests).fs = st.fs := by
  induction tests generalizing st with
  | nil => rw [suiteLoop_nil]
  | cons t ts ih =>
    rw [suiteLoop_cons, ih, runTest_fs_false]

/-- The event trace only grows along the loop. -/
theorem suiteLoop_events_mono (checker : CheckSideEffectsOptions → String)
    (cwd dir : String) (update : Bool) (tests : List Test) (st : SuiteState) :
    ∃ tail, (suiteLoop checker cwd dir update st tests).events = st.events ++ tail := by
  induction tests generalizing st with
  | nil => exact ⟨[], by rw [suiteLoop_nil, List.append_nil]⟩
  | cons t ts ih =>
    obtain ⟨tail1, h1⟩ := ih (runTest checker cwd dir update st t)
    refine ⟨[Event.log ("Testing " ++ modulesDescription t),
             Event.invoke (caseOptions cwd dir t)]
            ++ caseWriteEvents checker cwd dir update st.fs t ++ tail1, ?_⟩
    rw [suiteLoop_cons, h1, runTest_events]
    simp [List.append_assoc]

/-- Per-path frame property of the loop: a snapshot path for which the run
records no write event keeps its file content. -/
theorem suiteLoop_frame (checker : CheckSideEffectsOptions → String)
    (cwd dir : String) (update : Bool) (tests : List Test) (st : SuiteState)
    (p : String)
    (h : ∀ c, Event.write p c ∉ (suiteLoop checker cwd dir update st tests).events) :
    (suiteLoop checker cwd dir update st tests).fs.files.lookup p
      = st.fs.files.lookup p := by
  induction tests generalizing st with
  | nil => rw [suiteLoop_nil]
  | cons t ts ih =>
    rw [suiteLoop_cons] at h ⊢
    rw [ih _ h]
    rw [runTest_fs]
    split
    · rename_i hcond
      have hev : Event.write (expectedOutputPath dir t) (checker (caseOptions cwd dir t))
          ∈ (suiteLoop checker cwd dir update (runTest checker cwd dir update st t) ts).events := by
        obtain ⟨tail, htail⟩ := suiteLoop_events_mono checker cwd dir update ts
          (runTest checker cwd dir update st t)
        rw [htail, runTest_events]
        unfold caseWriteEvents
        rw [if_pos hcond]
        simp
      have hne : p ≠ expectedOutputPath dir t := by
        intro he
        exact h (checker (caseOptions cwd dir t)) (he ▸ hev)
      unfold writeFileSync
      rw [List.lookup_cons]
      have : (p == expectedOutputPath dir t) = false := beq_eq_false_iff_ne.mpr hne
      rw [this, mkDirs_files]
    · rfl

theorem runSuite_failed (checker : CheckSideEffectsOptions → String) (rawArgs : List String)
    (cwd : String) (update : Bool) (testFilePath : String) (testJson : TestJson) (fs0 : FS) :
    (runSuite checker rawArgs cwd update testFilePath testJson fs0).failed
      = (suiteLoop checker cwd (dirname testFilePath) update ⟨fs0, [], []⟩ testJson.tests).failed := by
  simp only [runSuite]
  split
  · split <;> rfl
  · rfl

theorem runSuite_fs (checker : CheckSideEffectsOptions → String) (rawArgs : List String)
    (cwd : String) (update : Bool) (testFilePath : String) (testJson : TestJson) (fs0 : FS) :
    (runSuite checker rawArgs cwd update testFilePath testJson fs0).fs
      = (suiteLoop checker cwd (dirname testFilePath) update ⟨fs0, [], []⟩ testJson.tests).fs := by
  simp only [runSuite]
  split
  · split <;> rfl
  · rfl

/-- The console lines printed after the loop (cli.ts lines 143-161). -/
def reportEvents (rawArgs : List String) (update : Bool)
    (failed : List FailedExpectation) : List Event :=
  if 0 < failed.length then
    [Event.log "", Event.log "The following snapshots have changed:\n\n",
     Event.log (diffsText failed)]
    ++ (if update then
          [Event.log (toString failed.length ++ " test expectations updated.\n")]
        else
          [Event.log (toString failed.length ++ " tests failed, see above for diffs."),
           Event.log "To update the expectations, run this command again with the --update flag:",
           Event.log "",
           Event.log ("  " ++ String.intercalate " " rawArgs ++ " --update")])
  else [Event.log "", Event.log "All tests passed."]

/-- The full event trace of a suite run: the loading line, then the loop
trace, then the report. -/
theorem runSuite_events (checker : CheckSideEffectsOptions → String) (rawArgs : List String)
    (cwd : String) (update : Bool) (testFilePath : String) (testJson : TestJson) (fs0 : FS) :
    (runSuite checker rawArgs cwd update testFilePath testJson fs0).events
      = Event.log ("Loading tests from " ++ testFilePath ++ "\n")
        :: ((suiteLoop checker cwd (dirname testFilePath) update ⟨fs0, [], []⟩ testJson.tests).events
            ++ reportEvents rawArgs update
                 (suiteLoop checker cwd (dirname testFilePath) update ⟨fs0, [], []⟩ testJson.tests).failed) := by
  simp only [runSuite, reportEvents]
  split
  · split <;> simp
  · simp

theorem reportEvents_filter_invoke (rawArgs : List String) (update : Bool)
    (failed : List FailedExpectation) :
    List.filter Event.isInvoke (reportEvents rawArgs update failed) = [] := by
  unfold reportEvents
  split
  · split <;> simp [List.filter_cons, List.filter_append, Event.isInvoke]
  · simp [List.filter_cons, Event.isInvoke]

theorem reportEvents_filter_write (rawArgs : List String) (update : Bool)
    (failed : List FailedExpectation) :
    List.filter Event.isWrite (reportEvents rawArgs update failed) = [] := by
  unfold reportEvents
  split
  · split <;> simp [List.filter_cons, List.filter_append, Event.isWrite]
  · simp [List.filter_cons, Event.isWrite]

theorem reportEvents_no_invoke (rawArgs : List String) (update : Bool)
    (failed : List FailedExpectation) :
    (reportEvents rawArgs update failed).all (fun e => !e.isInvoke) = true := by
  unfold reportEvents
  split
  · split <;> simp [Event.isInvoke]
  · simp [Event.isInvoke]

/-- Claim C9: for every suite of N cases, exactly N progress lines naming
each case's modules are printed, one immediately before each checker
invocation, in descriptor order, regardless of the outcome of any case:
the run's trace is the loading line, then the loop trace — whose non-write
events are exactly one `Testing ...` line followed by one invocation per
case, in order — then the report, which performs no invocation. -/
theorem claim_progress_lines (checker : CheckSideEffectsOptions → String)
    (rawArgs : List String) (cwd : String) (update : Bool) (testFilePath : String)
    (testJson : TestJson) (fs0 : FS) :
    (runSuite checker rawArgs cwd update testFilePath testJson fs0).events
      = Event.log ("Loading tests from " ++ testFilePath ++ "\n")
        :: ((suiteLoop checker cwd (dirname testFilePath) update ⟨fs0, [], []⟩ testJson.tests).events
            ++ reportEvents rawArgs update
                 (suiteLoop checker cwd (dirname testFilePath) update ⟨fs0, [], []⟩ testJson.tests).failed)
    ∧ ((suiteLoop checker cwd (dirname testFilePath) update ⟨fs0, [], []⟩ testJson.tests).events.filter
          (fun e => !e.isWrite))
      = testJson.tests.flatMap
          (fun t => [Event.log ("Testing " ++ modulesDescription t),
                     Event.invoke (caseOptions cwd (dirname testFilePath) t)])
    ∧ (reportEvents rawArgs update
         (suiteLoop checker cwd (dirname testFilePath) update ⟨fs0, [], []⟩ testJson.tests).failed).all
        (fun e => !e.isInvoke) = true := by
  refine ⟨runSuite_events checker rawArgs cwd update testFilePath testJson fs0, ?_,
    reportEvents_no_invoke rawArgs update _⟩
  rw [suiteLoop_nonwrite_events]
  simp

/-- Claim C4: evaluation is batch rather than fail-fast: whatever the
checker returns and whatever the snapshot state, the run's invocation
events are exactly one per case of the suite, in descriptor order, and
mismatches only accumulate failure records (at most one per case). -/
theorem claim_batch_evaluation (checker : CheckSideEffectsOptions → String)
    (rawArgs : List String) (cwd : String) (update : Bool) (testFilePath : String)
    (testJson : TestJson) (fs0 : FS) :
    ((runSuite checker rawArgs cwd update testFilePath testJson fs0).events.filter Event.isInvoke)
      = testJson.tests.map (fun t => Event.invoke (caseOptions cwd (dirname testFilePath) t))
    ∧ (runSuite checker rawArgs cwd update testFilePath testJson fs0).failed.length
        ≤ testJson.tests.length := by
  constructor
  · rw [runSuite_events, List.filter_cons, List.filter_append,
      suiteLoop_invoke_events, reportEvents_filter_invoke]
    simp [Event.isInvoke]
  · rw [runSuite_failed]
    have h := suiteLoop_failed_length checker cwd (dirname testFilePath) update
      testJson.tests ⟨fs0, [], []⟩
    simpa using h

/-- Claim C8: snapshot files are written only in update mode and only for a
case whose actual output differs from the expected text (the write count
equals the failure count in update mode and is zero otherwise), at most
once per case; without update mode the filesystem is returned untouched,
and any path without a write event keeps its file content. -/
theorem claim_snapshot_write_discipline (checker : CheckSideEffectsOptions → String)
    (rawArgs : List String) (cwd : String) (update : Bool) (testFilePath : String)
    (testJson : TestJson) (fs0 : FS) :
    ((runSuite checker rawArgs cwd update testFilePath testJson fs0).events.filter Event.isWrite).length
      = cond update (runSuite checker rawArgs cwd update testFilePath testJson fs0).failed.length 0
    ∧ (runSuite checker rawArgs cwd update testFilePath testJson fs0).failed.length
        ≤ testJson.tests.length
    ∧ (runSuite checker rawArgs cwd false testFilePath testJson fs0).fs = fs0
    ∧ ∀ p, (runSuite checker rawArgs cwd update testFilePath testJson fs0).fs.files.lookup p
             = fs0.files.lookup p
           ∨ ∃ c, Event.write p c
               ∈ (runSuite checker rawArgs cwd update testFilePath testJson fs0).events := by
  refine ⟨?_, ?_, ?_, ?_⟩
  · rw [runSuite_events, runSuite_failed, List.filter_cons, List.filter_append,
      reportEvents_filter_write]
    have h := suiteLoop_write_count checker cwd (dirname testFilePath) update
      testJson.tests ⟨fs0, [], []⟩
    simp only [List.filter_nil, List.length_nil, Nat.add_zero] at h
    simp only [Event.isWrite, List.append_nil]
    cases update <;> simpa using h
  · rw [runSuite_failed]
    have h := suiteLoop_failed_length checker cwd (dirname testFilePath) update
      testJson.tests ⟨fs0, [], []⟩
    simpa using h
  · rw [runSuite_fs, suiteLoop_fs_false]
  · intro p
    by_cases hc : ∃ c, Event.write p c
        ∈ (runSuite checker rawArgs cwd update testFilePath testJson fs0).events
    · exact Or.inr hc
    · refine Or.inl ?_
      push_neg at hc
      rw [runSuite_fs]
      have hloop : ∀ c, Event.write p c
          ∉ (suiteLoop checker cwd (dirname testFilePath) update ⟨fs0, [], []⟩ testJson.tests).events := by
        intro c hmem
        refine hc c ?_
        rw [runSuite_events]
        exact List.mem_cons_of_mem _ (List.mem_append_left _ hmem)
      exact suiteLoop_frame checker cwd (dirname testFilePath) update testJson.tests
        ⟨fs0, [], []⟩ p hloop

/-- Claim C1: in update mode a comparison mismatch never makes the run
raise: even with a non-empty failure list the run completes with `ok` and
prints the count of updated snapshot expectations. -/
theorem claim_update_mode_success (checker : CheckSideEffectsOptions → String)
    (rawArgs : List String) (cwd testFilePath : String) (testJson : TestJson) (fs0 : FS)
    (h : (runSuite checker rawArgs cwd true testFilePath testJson fs0).failed ≠ []) :
    (runSuite checker rawArgs cwd true testFilePath testJson fs0).result = Except.ok ()
    ∧ Event.log (toString (runSuite checker rawArgs cwd true testFilePath testJson fs0).failed.length
          ++ " test expectations updated.\n")
        ∈ (runSuite checker rawArgs cwd true testFilePath testJson fs0).events := by
  rw [runSuite_failed] at h
  have hpos : 0 < (suiteLoop checker cwd (dirname testFilePath) true ⟨fs0, [], []⟩ testJson.tests).failed.length :=
    List.length_pos.mpr h
  constructor
  · simp only [runSuite]
    rw [if_pos hpos]
    simp
  · rw [runSuite_failed, runSuite_events, reportEvents, if_pos hpos]
    simp

/-- Claim C2: without update mode, a run with at least one comparison
failure raises (the thrown empty string), and its trace ends — after the
diff block — with the failure count and the reproduction command made of
the original argument vector joined with an added update flag. -/
theorem claim_failure_report_raises (checker : CheckSideEffectsOptions → String)
    (rawArgs : List String) (cwd testFilePath : String) (testJson : TestJson) (fs0 : FS)
    (h : (runSuite checker rawArgs cwd false testFilePath testJson fs0).failed ≠ []) :
    (runSuite checker rawArgs cwd false testFilePath testJson fs0).result = Except.error ""
    ∧ ∃ pre,
        (runSuite checker rawArgs cwd false testFilePath testJson fs0).events
          = pre ++ [Event.log (toString (runSuite checker rawArgs cwd false testFilePath testJson fs0).failed.length
                      ++ " tests failed, see above for diffs."),
                    Event.log "To update the expectations, run this command again with the --update flag:",
                    Event.log "",
                    Event.log ("  " ++ String.intercalate " " rawArgs ++ " --update")]
        ∧ Event.log (diffsText (runSuite checker rawArgs cwd false testFilePath testJson fs0).failed) ∈ pre := by
  rw [runSuite_failed] at h
  have hpos : 0 < (suiteLoop checker cwd (dirname testFilePath) false ⟨fs0, [], []⟩ testJson.tests).failed.length :=
    List.length_pos.mpr h
  constructor
  · simp only [runSuite]
    rw [if_pos hpos]
    simp
  · refine ⟨Event.log ("Loading tests from " ++ testFilePath ++ "\n")
      :: ((suiteLoop checker cwd (dirname testFilePath) false ⟨fs0, [], []⟩ testJson.tests).events
          ++ [Event.log "", Event.log "The following snapshots have changed:\n\n",
              Event.log (diffsText (suiteLoop checker cwd (dirname testFilePath) false ⟨fs0, [], []⟩ testJson.tests).failed)]), ?_, ?_⟩
    · rw [runSuite_failed, runSuite_events, reportEvents, if_pos hpos]
      simp
    · rw [runSuite_failed]
      simp

/-- Claim C3: when the snapshot file of a case does not exist, the expected
text used by the comparison is the empty string (no error is raised), and
the failure recorded on mismatch carries the diff inserting the full actual
content into an empty expected text. -/
theorem claim_missing_snapshot (checker : CheckSideEffectsOptions → String)
    (cwd dir : String) (update : Bool) (st : SuiteState) (t : Test)
    (h : existsSync st.fs (expectedOutputPath dir t) = false)
    (h2 : checker (caseOptions cwd dir t) ≠ "") :
    expectedText st.fs (expectedOutputPath dir t) = ""
    ∧ (runTest checker cwd dir update st t).failed
        = st.failed ++ [⟨modulesDescription t,
            createPatch (expectedOutputPath dir t) "" (checker (caseOptions cwd dir t))⟩] := by
  have hexp : expectedText st.fs (expectedOutputPath dir t) = "" := by
    unfold expectedText
    rw [h]
    simp
  refine ⟨hexp, ?_⟩
  rw [runTest_failed]
  unfold caseFailures
  rw [hexp, if_pos h2]

/-- Claim C5: a single-run invocation whose resolved module-path list is
empty fails with the configuration error asking for at least one module. -/
theorem claim_single_run_requires_module (checker : CheckSideEffectsOptions → String)
    (options : ParsedCliOptions) (hne : options.pos ≠ [])
    (h : singleRunEsModules options.pos = []) :
    singleRun checker options
      = Except.error "You must provide at least one ES module. Use --help for usage information." := by
  simp [singleRun, h]

/-- Claim C6: argument-vector normalization strips two leading positional
tokens when the first ends in a platform interpreter name and one token
otherwise; in particular both sample argument vectors normalize to the
module list `["mod.js"]`. -/
theorem claim_argv_normalization :
    singleRunEsModules (minimistPositionals ["/usr/bin/node", "/path/cli.js", "mod.js"]) = ["mod.js"]
    ∧ singleRunEsModules (minimistPositionals ["check-side-effects", "mod.js"]) = ["mod.js"]
    ∧ ∀ (a : String) (l : List String),
        singleRunEsModules (a :: l) = if isNodeBinary a then l.drop 1 else l := by
  refine ⟨by decide, by decide, ?_⟩
  intro a l
  unfold singleRunEsModules
  simp [List.headD]

/-- Claim C7: a test record declaring `esModules` as the single string `s`
and one declaring it as the singleton list `[s]` normalize to the identical
one-element resolved module list; module paths and the expected-output path
are resolved against the descriptor directory, and the resolved module list
does not depend on the configured working directory. -/
theorem claim_esmodules_normalization (s dir cwd1 cwd2 e : String)
    (o : Option TestOptions) (t : Test) :
    resolvedEsModules dir ⟨Sum.inl s, o, e⟩ = resolvedEsModules dir ⟨Sum.inr [s], o, e⟩
    ∧ resolvedEsModules dir ⟨Sum.inl s, o, e⟩ = [resolve dir s]
    ∧ (caseOptions cwd1 dir t).esModules = (caseOptions cwd2 dir t).esModules
    ∧ expectedOutputPath dir t = resolve dir t.expectedOutput := by
  refine ⟨rfl, rfl, ?_, rfl⟩
  unfold caseOptions
  cases t.options <;> rfl

/-- Claim C10: the recursive directory-creation helper terminates whenever
some iterate of `dirname` from the given path reaches an existing entry
(the root's dirname is itself), and when the given path already exists it
returns the filesystem unchanged, performing no mutation. -/
theorem claim_recursive_mkdir (fs : FS) (path : String) (n : Nat)
    (h : existsSync fs (dirname^[n] path) = true) :
    (_recursiveMkDir (n + 1) fs path).isSome = true
    ∧ (existsSync fs path = true → _recursiveMkDir (n + 1) fs path = some fs)
    ∧ dirname "/" = "/" := by
  refine ⟨?_, ?_, by decide⟩
  · induction n generalizing path with
    | zero =>
      rw [Function.iterate_zero_apply] at h
      simp [_recursiveMkDir, h]
    | succ m ih =>
      by_cases hex : existsSync fs path
      · simp [_recursiveMkDir, hex]
      · rw [Function.iterate_succ_apply] at h
        have hrec := ih (dirname path) h
        rw [_recursiveMkDir]
        rw [if_neg (by simpa using hex)]
        rcases hval : _recursiveMkDir (m + 1) fs (dirname path) with _ | fs2
        · rw [hval] at hrec
          simp at hrec
        · simp
  · intro hex
    simp [_recursiveMkDir, hex]

/-- Concrete sample inputs used to evaluate the claims. -/
def sampleChecker : CheckSideEffectsOptions → String := fun _ => "X"

def sampleTest : Test := ⟨Sum.inl "a.js", none, "a.snap"⟩

def sampleJson : TestJson := ⟨[sampleTest]⟩

def sampleFS : FS := ⟨[], []⟩

def sampleArgs : List String := ["check-side-effects", "--test", "tests.json"]

def sampleSingleOptions : ParsedCliOptions := { pos := ["check-side-effects"], cwd := "/w" }

def sampleRootFS : FS := ⟨[], ["/"]⟩

theorem claim_update_mode_success_witness :
    (runSuite sampleChecker sampleArgs "/w" true "/t/tests.json" sampleJson sampleFS).result
      = Except.ok ()
    ∧ Event.log (toString (runSuite sampleChecker sampleArgs "/w" true "/t/tests.json" sampleJson sampleFS).failed.length
          ++ " test expectations updated.\n")
        ∈ (runSuite sampleChecker sampleArgs "/w" true "/t/tests.json" sampleJson sampleFS).events :=
  claim_update_mode_success sampleChecker sampleArgs "/w" "/t/tests.json" sampleJson sampleFS
    (by decide)

theorem claim_failure_report_raises_witness :
    (runSuite sampleChecker sampleArgs "/w" false "/t/tests.json" sampleJson sampleFS).result
      = Except.error ""
    ∧ ∃ pre,
        (runSuite sampleChecker sampleArgs "/w" false "/t/tests.json" sampleJson sampleFS).events
          = pre ++ [Event.log (toString (runSuite sampleChecker sampleArgs "/w" false "/t/tests.json" sampleJson sampleFS).failed.length
                      ++ " tests failed, see above for diffs."),
                    Event.log "To update the expectations, run this command again with the --update flag:",
                    Event.log "",
                    Event.log ("  " ++ String.intercalate " " sampleArgs ++ " --update")]
        ∧ Event.log (diffsText (runSuite sampleChecker sampleArgs "/w" false "/t/tests.json" sampleJson sampleFS).failed) ∈ pre :=
  claim_failure_report_raises sampleChecker sampleArgs "/w" "/t/tests.json" sampleJson sampleFS
    (by decide)

theorem claim_missing_snapshot_witness :
    expectedText (SuiteState.mk sampleFS [] []).fs (expectedOutputPath "/t" sampleTest) = ""
    ∧ (runTest sampleChecker "/w" "/t" false ⟨sampleFS, [], []⟩ sampleTest).failed
        = (SuiteState.mk sampleFS [] []).failed
          ++ [⟨modulesDescription sampleTest,
               createPatch (expectedOutputPath "/t" sampleTest) ""
                 (sampleChecker (caseOptions "/w" "/t" sampleTest))⟩] :=
  claim_missing_snapshot sampleChecker "/w" "/t" false ⟨sampleFS, [], []⟩ sampleTest
    (by decide) (by decide)

theorem claim_single_run_requires_module_witness :
    singleRun sampleChecker sampleSingleOptions
      = Except.error "You must provide at least one ES module. Use --help for usage information." :=
  claim_single_run_requires_module sampleChecker sampleSingleOptions (by decide) (by decide)

theorem claim_recursive_mkdir_witness :
    (_recursiveMkDir (2 + 1) sampleRootFS "/a/b").isSome = true
    ∧ (existsSync sampleRootFS "/a/b" = true → _recursiveMkDir (2 + 1) sampleRootFS "/a/b" = some sampleRootFS)
    ∧ dirname "/" = "/" :=
  claim_recursive_mkdir sampleRootFS "/a/b" 2 (by decide)

end CheckSideEffects
